import Mathlib

/-!
Shallow embedding of ntl::WmiService from
src/FirewallEventMonitor/ntl/ntlWmiService.hpp.

Native COM pointers are modelled as resource identities of type Option Nat
(none is the null pointer; copies of a handle share the same identity,
mirroring reference-counted shared ownership).  HRESULT values are signed
32-bit status codes embedded in Int; the FAILED macro tests negativity.
The outcome of each native call (CoCreateInstance, ConnectServer,
CoSetProxyBlanket, DeleteInstance, GetCallStatus, CoInitializeEx) is
supplied by an environment structure, and every operation also returns the
chronological trace of native calls it performed, including the release of
partly acquired resources during unwinding.
-/

namespace Ntl

/-- HRESULT values, as signed 32-bit integers embedded in Int. -/
abbrev HRESULT := Int

/-- The FAILED macro from winerror.h: an HRESULT denotes failure iff its
sign bit is set, i.e. iff it is negative as a signed integer. -/
def FAILED (hr : HRESULT) : Bool := hr < 0

/-- WBEM_FLAG_RETURN_IMMEDIATELY from Wbemidl.h (value 0x10). -/
def WBEM_FLAG_RETURN_IMMEDIATELY : Int := 16

/-- WBEM_INFINITE from Wbemidl.h (value 0xFFFFFFFF). -/
def WBEM_INFINITE : Int := 4294967295

/-- RPC_C_AUTHN_WINNT: Windows-native (NTLMSSP) authentication service. -/
def RPC_C_AUTHN_WINNT : Int := 10

/-- RPC_C_AUTHZ_NONE: no authorization service. -/
def RPC_C_AUTHZ_NONE : Int := 0

/-- RPC_C_AUTHN_LEVEL_CALL: authenticate at the beginning of each call. -/
def RPC_C_AUTHN_LEVEL_CALL : Int := 3

/-- RPC_C_IMP_LEVEL_IMPERSONATE: server may impersonate the client. -/
def RPC_C_IMP_LEVEL_IMPERSONATE : Int := 3

/-- EOAC_NONE: default proxy capabilities. -/
def EOAC_NONE : Int := 0

/-- WBEM_E_NOT_FOUND (0x80041002) as a signed 32-bit value. -/
def WBEM_E_NOT_FOUND : HRESULT := -2147217406

/-- WBEM_E_INVALID_OBJECT_PATH (0x8004103A) as a signed 32-bit value. -/
def WBEM_E_INVALID_OBJECT_PATH : HRESULT := -2147217350

/-- RPC_E_CHANGED_MODE (0x80010106) as a signed 32-bit value. -/
def RPC_E_CHANGED_MODE : HRESULT := -2147417850

/-- RPC_E_DISCONNECTED (0x80010108) as a signed 32-bit value. -/
def RPC_E_DISCONNECTED : HRESULT := -2147417848

/-- The structured failure value thrown by the ntl classes
(ntl::Exception and its subclass ntl::WmiException): the failing native
status code, the name of the failing native operation, the name of the
failing local operation, and whether the failure is considered fatal. -/
structure NtlException where
  statusCode : HRESULT
  nativeOp : String
  localOp : String
  critical : Bool
deriving DecidableEq

/-- Exception thrown at line 62 when IWbemLocator::ConnectServer fails. -/
def connectServerError (hr : HRESULT) : NtlException :=
  ⟨hr, "IWbemLocator::ConnectServer", "WmiService::connect", false⟩

/-- Exception thrown at line 76 when CoSetProxyBlanket fails. -/
def setProxyBlanketError (hr : HRESULT) : NtlException :=
  ⟨hr, "CoSetProxyBlanket", "WmiService::connect", false⟩

/-- Modelled from the spec: ntlComInitialize.hpp is not under src/.  The
SubsystemGuard (ntl::ComInitialize) performs per-thread CoInitializeEx and
its construction fails with a SubsystemInitError when the underlying
initialization cannot be established. -/
def subsystemInitError (hr : HRESULT) : NtlException :=
  ⟨hr, "CoInitializeEx", "ComInitialize", false⟩

/-- Modelled from the spec: the ComPtr class (ntlComInitialize.hpp) is not
under src/.  Its createInstance factory wraps CoCreateInstance and fails
with a ConnectionError at the locator-create stage when creation fails. -/
def createInstanceError (hr : HRESULT) : NtlException :=
  ⟨hr, "CoCreateInstance", "ComPtr::createInstance", false⟩

/-- Exception thrown at lines 145 and 155: both the submit-stage failure
and the completed-stage failure of delete_path name
IWbemServices::DeleteInstance as the failing native operation. -/
def deleteInstanceError (hr : HRESULT) : NtlException :=
  ⟨hr, "IWbemServices::DeleteInstance", "WmiService::delete_path", false⟩

/-- Exception thrown at line 152 when IWbemCallResult::GetCallStatus
itself fails. -/
def getCallStatusError (hr : HRESULT) : NtlException :=
  ⟨hr, "IWbemCallResult::GetCallStatus", "WmiService::delete_path", false⟩

/-- ConnectionError per the spec taxonomy: the failing native operation is
either the locator creation or the connect call. -/
def isConnectionError (e : NtlException) : Bool :=
  e.nativeOp == "CoCreateInstance" || e.nativeOp == "IWbemLocator::ConnectServer"

/-- SecurityConfigurationError per the spec taxonomy: the failing native
operation is the proxy-blanket configuration call. -/
def isSecurityConfigurationError (e : NtlException) : Bool :=
  e.nativeOp == "CoSetProxyBlanket"

/-- SubsystemInitError per the spec taxonomy: the failing native operation
is the per-thread subsystem initialization call. -/
def isSubsystemInitError (e : NtlException) : Bool :=
  e.nativeOp == "CoInitializeEx"

/-- One native call performed by WmiService, recorded chronologically.
Release events record the destruction (refcount decrement) of resources
during unwinding after a failed construction. -/
inductive Event where
  | comInitMember : Event
  | createLocator : Event
  | connectServer (path : String) (user password locale : Option String)
      (secFlags : Int) (authority : Option String) (ctx : Option Nat) : Event
  | setProxyBlanket (proxy : Option Nat) (authn authz : Int)
      (principal : Option String) (authnLevel impLevel : Int)
      (identity : Option Nat) (caps : Int) : Event
  | deleteInstance (objPath : String) (flags : Int) (ctx : Option Nat) : Event
  | getCallStatus (timeout : Int) : Event
  | releaseServices (p : Nat) : Event
  | releaseLocator (p : Nat) : Event
  | releaseGuard (g : Nat) : Event
deriving DecidableEq

/-- Tests whether an event is a CoSetProxyBlanket call. -/
def Event.isBlanket : Event → Bool
  | Event.setProxyBlanket _ _ _ _ _ _ _ _ => true
  | _ => false

/-- The state of an ntl::WmiService object: the per-thread initialization
guard member coinit, and the two shared-ownership COM pointers
wbemLocator and wbemServices (lines 179-181).  Pointers carry the
identity of the underlying native object; none is the null pointer. -/
structure WmiService where
  coinit : Nat
  wbemLocator : Option Nat
  wbemServices : Option Nat
deriving DecidableEq

/-- Results of the native calls made during WmiService construction.
The comInit and createLocator fields are Modelled from the spec: the
ComInitialize and ComPtr sources are not under src/; each either fails
with a status code or yields the identity of the acquired resource. -/
structure ConnectEnv where
  comInit : Except HRESULT Nat
  createLocator : Except HRESULT Nat
  connectServer : String → HRESULT × Option Nat
  setProxyBlanket : Option Nat → HRESULT

/-- Well-formedness of the native environment: IWbemLocator::ConnectServer
writes a non-null services proxy through its out parameter whenever it
succeeds (the COM contract). -/
def ConnectEnv.WF (env : ConnectEnv) : Prop :=
  ∀ p, FAILED (env.connectServer p).1 = false → (env.connectServer p).2.isSome = true

/-- Release events emitted while unwinding a failed construction after the
locator (and possibly the services pointer) and the guard were acquired:
members are destroyed in reverse declaration order. -/
def releaseAcquired (services : Option Nat) (loc g : Nat) : List Event :=
  (match services with
   | none => []
   | some s => [Event.releaseServices s]) ++ [Event.releaseLocator loc, Event.releaseGuard g]

/-- The WmiService constructor (lines 47-78): construct the coinit guard
member, create the IWbemLocator, connect to the namespace path storing the
received services proxy, throw connectServerError if the connect failed,
apply the fixed proxy security blanket, throw setProxyBlanketError if that
failed; on any throw the already-constructed members are destroyed
(releasing their resources) and no handle is produced. -/
def WmiService.construct (env : ConnectEnv) (path : String) :
    Except NtlException WmiService × List Event :=
  match env.comInit with
  | Except.error hr => (Except.error (subsystemInitError hr), [Event.comInitMember])
  | Except.ok g =>
    match env.createLocator with
    | Except.error hr =>
        (Except.error (createInstanceError hr),
         [Event.comInitMember, Event.createLocator, Event.releaseGuard g])
    | Except.ok loc =>
      let cs := env.connectServer path
      let evs := [Event.comInitMember, Event.createLocator,
                  Event.connectServer path none none none 0 none none]
      if FAILED cs.1 then
        (Except.error (connectServerError cs.1), evs ++ releaseAcquired cs.2 loc g)
      else
        let hr2 := env.setProxyBlanket cs.2
        let evs2 := evs ++ [Event.setProxyBlanket cs.2 RPC_C_AUTHN_WINNT RPC_C_AUTHZ_NONE
                             none RPC_C_AUTHN_LEVEL_CALL RPC_C_IMP_LEVEL_IMPERSONATE
                             none EOAC_NONE]
        if FAILED hr2 then
          (Except.error (setProxyBlanketError hr2), evs2 ++ releaseAcquired cs.2 loc g)
        else
          (Except.ok ⟨g, some loc, cs.2⟩, evs2)

/-- The copy constructor (lines 83-86): a fresh coinit guard is
constructed (the only step that can fail, Modelled from the spec since
ComInitialize is not under src/), and the locator and services pointers of
the source are shared (refcount increment, no new connection). -/
def WmiService.copy (src : WmiService) (coinitRes : Except HRESULT Nat) :
    Except NtlException WmiService :=
  match coinitRes with
  | Except.error hr => Except.error (subsystemInitError hr)
  | Except.ok g => Except.ok ⟨g, src.wbemLocator, src.wbemServices⟩

/-- The copy-assignment operator (lines 87-94): construct a temporary copy
of the source; if that throws, the target is untouched and the exception
propagates; otherwise swap the wbemLocator and wbemServices members with
the temporary (the coinit member is not swapped) and return normally. -/
def WmiService.assign (target src : WmiService) (coinitRes : Except HRESULT Nat) :
    WmiService × Option NtlException :=
  match WmiService.copy src coinitRes with
  | Except.error e => (target, some e)
  | Except.ok temp =>
      ({ target with wbemLocator := temp.wbemLocator,
                     wbemServices := temp.wbemServices }, none)

/-- The equality operator (lines 116-120): resource-identity comparison of
both pointer members; the coinit member does not participate. -/
def WmiService.beq (a b : WmiService) : Bool :=
  a.wbemLocator == b.wbemLocator && a.wbemServices == b.wbemServices

/-- The inequality operator (lines 121-124): logical negation of equality. -/
def WmiService.neq (a b : WmiService) : Bool :=
  !(WmiService.beq a b)

/-- Pass-through access to the underlying services proxy
(get and the arrow operator, lines 107-133). -/
def WmiService.getServices (svc : WmiService) : Option Nat :=
  svc.wbemServices

/-- Results of the native calls made during delete_path: DeleteInstance
receives the services proxy, the object path, the flags and the context
and returns an HRESULT (plus a call-result token, left implicit);
GetCallStatus receives the timeout and returns its own HRESULT together
with the service-reported completion status written through its out
parameter. -/
structure DeleteEnv where
  deleteInstance : Option Nat → String → Int → Option Nat → HRESULT
  getCallStatus : Int → HRESULT × HRESULT

/-- The two-argument delete_path (lines 135-157): submit DeleteInstance in
return-immediately mode requesting a call-result token; if the submission
failed, throw deleteInstanceError and stop (no wait happens).  Otherwise
block on GetCallStatus with an infinite timeout; if retrieving the status
failed, throw getCallStatusError.  If the retrieved service-reported
status is a failure, throw deleteInstanceError carrying that status;
otherwise return normally. -/
def WmiService.delete_path (svc : WmiService) (env : DeleteEnv)
    (objPath : String) (context : Option Nat) :
    Except NtlException Unit × List Event :=
  let hr := env.deleteInstance svc.wbemServices objPath WBEM_FLAG_RETURN_IMMEDIATELY context
  let ev1 := Event.deleteInstance objPath WBEM_FLAG_RETURN_IMMEDIATELY context
  if FAILED hr then
    (Except.error (deleteInstanceError hr), [ev1])
  else
    let gc := env.getCallStatus WBEM_INFINITE
    let ev2 := Event.getCallStatus WBEM_INFINITE
    if FAILED gc.1 then
      (Except.error (getCallStatusError gc.1), [ev1, ev2])
    else if FAILED gc.2 then
      (Except.error (deleteInstanceError gc.2), [ev1, ev2])
    else
      (Except.ok (), [ev1, ev2])

/-- The single-argument delete_path overload (lines 168-172): construct a
default (null) context and delegate to the two-argument overload. -/
def WmiService.delete_path_default (svc : WmiService) (env : DeleteEnv)
    (objPath : String) : Except NtlException Unit × List Event :=
  let null_context : Option Nat := none
  WmiService.delete_path svc env objPath null_context

/-- Tests whether an event is the release of the coinit guard. -/
def Event.isReleaseGuard : Event → Bool
  | Event.releaseGuard _ => true
  | _ => false

/-- Tests whether an event is the release of the locator resource. -/
def Event.isReleaseLocator : Event → Bool
  | Event.releaseLocator _ => true
  | _ => false

/-- Tests whether an event is the release of the services resource. -/
def Event.isReleaseServices : Event → Bool
  | Event.releaseServices _ => true
  | _ => false

/-- Tests whether a native-call result is a success. -/
def isOkE (x : Except HRESULT Nat) : Bool :=
  match x with
  | Except.ok _ => true
  | Except.error _ => false

/-- The coinit guard is acquired during construction exactly when its own
initialization succeeds. -/
def guardAcquired (env : ConnectEnv) : Bool :=
  isOkE env.comInit

/-- The locator resource is acquired exactly when the guard was acquired
and CoCreateInstance succeeded. -/
def locatorAcquired (env : ConnectEnv) : Bool :=
  isOkE env.comInit && isOkE env.createLocator

/-- The services resource is acquired (stored in the wbemServices member)
exactly when the locator was acquired and ConnectServer wrote a non-null
proxy through its out parameter. -/
def servicesAcquired (env : ConnectEnv) (path : String) : Bool :=
  locatorAcquired env && (env.connectServer path).2.isSome

/-- A sample fully-connected handle state. -/
def svc0 : WmiService := ⟨1, some 2, some 3⟩

/-- A delete environment in which the DeleteInstance submission itself
fails with the not-found status. -/
def denvSubmitNotFound : DeleteEnv :=
  ⟨fun _ _ _ _ => WBEM_E_NOT_FOUND, fun _ => (0, 0)⟩

/-- A delete environment in which the DeleteInstance submission itself
fails with the invalid-object-path status. -/
def denvSubmitBadPath : DeleteEnv :=
  ⟨fun _ _ _ _ => WBEM_E_INVALID_OBJECT_PATH, fun _ => (0, 0)⟩

/-- A delete environment in which submission and status retrieval succeed
but the service reports a not-found completion status. -/
def denvCompletedNotFound : DeleteEnv :=
  ⟨fun _ _ _ _ => 0, fun _ => (0, WBEM_E_NOT_FOUND)⟩

/-- A connect environment in which every native call succeeds. -/
def cenvOK : ConnectEnv :=
  ⟨Except.ok 1, Except.ok 2, fun _ => (0, some 3), fun _ => 0⟩

/-- A second all-success connect environment handing out distinct resource
identities: an independent connection to the same namespace. -/
def cenvOK2 : ConnectEnv :=
  ⟨Except.ok 4, Except.ok 5, fun _ => (0, some 6), fun _ => 0⟩

/-- A connect environment in which the per-thread guard initialization
fails with RPC_E_CHANGED_MODE. -/
def cenvGuardFail : ConnectEnv :=
  ⟨Except.error RPC_E_CHANGED_MODE, Except.ok 1, fun _ => (0, some 2), fun _ => 0⟩

/-- C1: every call to delete_path has exactly one of four outcomes, each
characterized by the native-call results.  It fails at the submit stage
exactly when the delete submission itself fails, and then no completion
wait happens (the trace holds the submit call only); given a successful
submission, it fails at the await-status stage exactly when retrieving the
completion status fails; given a successful retrieval, it fails at the
completed stage exactly when the service-reported status is a failure,
carrying that status; otherwise it returns normally.  The exact traces
show each stage runs at most once, so no stage is retried. -/
theorem delete_path_stage_outcomes (svc : WmiService) (env : DeleteEnv)
    (p : String) (c : Option Nat) :
    (((svc.delete_path env p c).1 =
        Except.error (deleteInstanceError
          (env.deleteInstance svc.wbemServices p WBEM_FLAG_RETURN_IMMEDIATELY c)) ∧
      (svc.delete_path env p c).2 =
        [Event.deleteInstance p WBEM_FLAG_RETURN_IMMEDIATELY c]) ↔
      FAILED (env.deleteInstance svc.wbemServices p WBEM_FLAG_RETURN_IMMEDIATELY c) = true) ∧
    (((svc.delete_path env p c).1 =
        Except.error (getCallStatusError (env.getCallStatus WBEM_INFINITE).1) ∧
      (svc.delete_path env p c).2 =
        [Event.deleteInstance p WBEM_FLAG_RETURN_IMMEDIATELY c,
         Event.getCallStatus WBEM_INFINITE]) ↔
      (FAILED (env.deleteInstance svc.wbemServices p WBEM_FLAG_RETURN_IMMEDIATELY c) = false ∧
       FAILED (env.getCallStatus WBEM_INFINITE).1 = true)) ∧
    (((svc.delete_path env p c).1 =
        Except.error (deleteInstanceError (env.getCallStatus WBEM_INFINITE).2) ∧
      (svc.delete_path env p c).2 =
        [Event.deleteInstance p WBEM_FLAG_RETURN_IMMEDIATELY c,
         Event.getCallStatus WBEM_INFINITE]) ↔
      (FAILED (env.deleteInstance svc.wbemServices p WBEM_FLAG_RETURN_IMMEDIATELY c) = false ∧
       FAILED (env.getCallStatus WBEM_INFINITE).1 = false ∧
       FAILED (env.getCallStatus WBEM_INFINITE).2 = true)) ∧
    ((svc.delete_path env p c).1 = Except.ok () ↔
      (FAILED (env.deleteInstance svc.wbemServices p WBEM_FLAG_RETURN_IMMEDIATELY c) = false ∧
       FAILED (env.getCallStatus WBEM_INFINITE).1 = false ∧
       FAILED (env.getCallStatus WBEM_INFINITE).2 = false)) := by
  cases h1 : FAILED (env.deleteInstance svc.wbemServices p WBEM_FLAG_RETURN_IMMEDIATELY c) <;>
    cases h2 : FAILED (env.getCallStatus WBEM_INFINITE).1 <;>
      cases h3 : FAILED (env.getCallStatus WBEM_INFINITE).2 <;>
        simp [WmiService.delete_path, h1, h2, h3, deleteInstanceError,
          getCallStatusError]

/-- C7: the single-argument delete_path overload produces exactly the same
outcome (result and trace of native calls) as the two-argument overload
invoked with a null call context. -/
theorem delete_path_default_agrees (svc : WmiService) (env : DeleteEnv) (p : String) :
    svc.delete_path_default env p = svc.delete_path env p none := rfl

/-- C8: in every execution of delete_path the trace starts with the
submit call; the completion wait appears, strictly after the submit,
exactly when the submission succeeded; and the only waiting call ever made
is GetCallStatus with the infinite timeout, so the caller is never
released by a timeout and no cancellation call exists in any trace. -/
theorem delete_path_submit_precedes_wait (svc : WmiService) (env : DeleteEnv)
    (p : String) (c : Option Nat) :
    ((svc.delete_path env p c).2 =
        [Event.deleteInstance p WBEM_FLAG_RETURN_IMMEDIATELY c] ∨
     (svc.delete_path env p c).2 =
        [Event.deleteInstance p WBEM_FLAG_RETURN_IMMEDIATELY c,
         Event.getCallStatus WBEM_INFINITE]) ∧
    ((svc.delete_path env p c).2 =
        [Event.deleteInstance p WBEM_FLAG_RETURN_IMMEDIATELY c,
         Event.getCallStatus WBEM_INFINITE] ↔
      FAILED (env.deleteInstance svc.wbemServices p WBEM_FLAG_RETURN_IMMEDIATELY c) = false) := by
  cases h1 : FAILED (env.deleteInstance svc.wbemServices p WBEM_FLAG_RETURN_IMMEDIATELY c) <;>
    cases h2 : FAILED (env.getCallStatus WBEM_INFINITE).1 <;>
      cases h3 : FAILED (env.getCallStatus WBEM_INFINITE).2 <;>
        simp [WmiService.delete_path, h1, h2, h3]

/-- C2 counterexample: one call fails at the submit stage (the trace holds
only the submit call) and another fails at the completed stage (after a
successful submit and wait), yet both deliver the identical structured
failure value: the same status code, the same native operation name
(IWbemServices::DeleteInstance at both throw sites), the same local
operation name and the same criticality flag.  The failure value therefore
does not distinguish the two stages. -/
theorem delete_path_stage_indistinguishable :
    (svc0.delete_path denvSubmitNotFound "objpath" none).1 =
      Except.error (deleteInstanceError WBEM_E_NOT_FOUND) ∧
    (svc0.delete_path denvSubmitNotFound "objpath" none).2 =
      [Event.deleteInstance "objpath" WBEM_FLAG_RETURN_IMMEDIATELY none] ∧
    (svc0.delete_path denvCompletedNotFound "objpath" none).1 =
      Except.error (deleteInstanceError WBEM_E_NOT_FOUND) ∧
    (svc0.delete_path denvCompletedNotFound "objpath" none).2 =
      [Event.deleteInstance "objpath" WBEM_FLAG_RETURN_IMMEDIATELY none,
       Event.getCallStatus WBEM_INFINITE] := by
  refine ⟨?_, ?_, ?_, ?_⟩ <;> rfl

/-- C2 amended: a submit-stage failure value and a completed-stage failure
value agree on the native operation name, the local operation name and the
criticality flag, so the status code is the only field that can separate
them: they are distinguishable exactly when their status codes differ
(an await-status failure is always distinguishable by its native operation
name).  In particular a completed-stage not-found failure differs from a
submit-stage failure only through its status code. -/
theorem delete_path_failure_value_discrimination
    (svc1 svc2 : WmiService) (env1 env2 : DeleteEnv) (p1 p2 : String)
    (c1 c2 : Option Nat) (e1 e2 : NtlException)
    (h1 : FAILED (env1.deleteInstance svc1.wbemServices p1 WBEM_FLAG_RETURN_IMMEDIATELY c1) = true)
    (hr1 : (svc1.delete_path env1 p1 c1).1 = Except.error e1)
    (h2a : FAILED (env2.deleteInstance svc2.wbemServices p2 WBEM_FLAG_RETURN_IMMEDIATELY c2) = false)
    (h2b : FAILED (env2.getCallStatus WBEM_INFINITE).1 = false)
    (h2c : FAILED (env2.getCallStatus WBEM_INFINITE).2 = true)
    (hr2 : (svc2.delete_path env2 p2 c2).1 = Except.error e2) :
    e1.nativeOp = e2.nativeOp ∧ e1.localOp = e2.localOp ∧
    e1.critical = e2.critical ∧ (e1 = e2 ↔ e1.statusCode = e2.statusCode) ∧
    e2.nativeOp ≠ (getCallStatusError 0).nativeOp := by
  have he1 : e1 = deleteInstanceError
      (env1.deleteInstance svc1.wbemServices p1 WBEM_FLAG_RETURN_IMMEDIATELY c1) := by
    simp [WmiService.delete_path, h1] at hr1
    exact hr1.symm
  have he2 : e2 = deleteInstanceError (env2.getCallStatus WBEM_INFINITE).2 := by
    simp [WmiService.delete_path, h2a, h2b, h2c] at hr2
    exact hr2.symm
  subst he1
  subst he2
  simp [deleteInstanceError, getCallStatusError, NtlException.mk.injEq]

/-- C2 amended, witness: a concrete submit-stage failure carrying the
invalid-object-path status and a concrete completed-stage failure carrying
the not-found status agree on every field but the status code. -/
theorem delete_path_failure_value_discrimination_witness :
    (deleteInstanceError WBEM_E_INVALID_OBJECT_PATH).nativeOp =
      (deleteInstanceError WBEM_E_NOT_FOUND).nativeOp ∧
    (deleteInstanceError WBEM_E_INVALID_OBJECT_PATH).localOp =
      (deleteInstanceError WBEM_E_NOT_FOUND).localOp ∧
    (deleteInstanceError WBEM_E_INVALID_OBJECT_PATH).critical =
      (deleteInstanceError WBEM_E_NOT_FOUND).critical ∧
    (deleteInstanceError WBEM_E_INVALID_OBJECT_PATH = deleteInstanceError WBEM_E_NOT_FOUND ↔
      (deleteInstanceError WBEM_E_INVALID_OBJECT_PATH).statusCode =
        (deleteInstanceError WBEM_E_NOT_FOUND).statusCode) ∧
    (deleteInstanceError WBEM_E_NOT_FOUND).nativeOp ≠ (getCallStatusError 0).nativeOp :=
  delete_path_failure_value_discrimination svc0 svc0 denvSubmitBadPath denvCompletedNotFound
    "a" "b" none none (deleteInstanceError WBEM_E_INVALID_OBJECT_PATH)
    (deleteInstanceError WBEM_E_NOT_FOUND) (by decide) rfl (by decide) (by decide) (by decide) rfl

/-- C3 amended: for every well-formed native environment and namespace
path, construction is all-or-nothing.  Either it succeeds and the handle
holds a valid (non-null) locator and a valid connection whose proxy-
blanket configuration succeeded and was applied exactly once, or it fails
with a SubsystemInitError at the thread-initialization step, a
ConnectionError at the locator-create or connect step, or a
SecurityConfigurationError at the security-configuration step, and every
partly acquired resource (guard, locator, services proxy) is released
exactly once while no handle is produced. -/
theorem construct_all_or_nothing (env : ConnectEnv) (path : String) (hWF : env.WF) :
    (∃ h : WmiService, (WmiService.construct env path).1 = Except.ok h ∧
      h.wbemLocator.isSome = true ∧ h.wbemServices.isSome = true ∧
      FAILED (env.setProxyBlanket h.wbemServices) = false ∧
      (WmiService.construct env path).2.countP Event.isBlanket = 1) ∨
    (∃ e : NtlException, (WmiService.construct env path).1 = Except.error e ∧
      (isSubsystemInitError e = true ∨ isConnectionError e = true ∨
        isSecurityConfigurationError e = true) ∧
      (WmiService.construct env path).2.countP Event.isReleaseGuard =
        (if guardAcquired env then 1 else 0) ∧
      (WmiService.construct env path).2.countP Event.isReleaseLocator =
        (if locatorAcquired env then 1 else 0) ∧
      (WmiService.construct env path).2.countP Event.isReleaseServices =
        (if servicesAcquired env path then 1 else 0)) := by
  cases hci : env.comInit with
  | error hr =>
      refine Or.inr ⟨subsystemInitError hr, ?_⟩
      simp [WmiService.construct, hci, guardAcquired, locatorAcquired, servicesAcquired,
        isOkE, isSubsystemInitError, subsystemInitError, List.countP, List.countP.go,
        Event.isReleaseGuard, Event.isReleaseLocator, Event.isReleaseServices]
  | ok g =>
    cases hcl : env.createLocator with
    | error hr =>
        refine Or.inr ⟨createInstanceError hr, ?_⟩
        simp [WmiService.construct, hci, hcl, guardAcquired, locatorAcquired,
          servicesAcquired, isOkE, isConnectionError, createInstanceError,
          List.countP, List.countP.go, Event.isReleaseGuard, Event.isReleaseLocator,
          Event.isReleaseServices]
    | ok loc =>
      rcases hcs : env.connectServer path with ⟨hr1, sv⟩
      cases hf1 : FAILED hr1 with
      | true =>
          refine Or.inr ⟨connectServerError hr1, ?_⟩
          cases sv <;>
            simp [WmiService.construct, hci, hcl, hcs, hf1, guardAcquired,
              locatorAcquired, servicesAcquired, isOkE, isConnectionError,
              connectServerError, releaseAcquired, List.countP, List.countP.go,
              Event.isReleaseGuard, Event.isReleaseLocator, Event.isReleaseServices]
      | false =>
        cases sv with
        | none =>
            cases hf2 : FAILED (env.setProxyBlanket none) with
            | true =>
                refine Or.inr ⟨setProxyBlanketError (env.setProxyBlanket none), ?_⟩
                simp [WmiService.construct, hci, hcl, hcs, hf1, hf2, guardAcquired,
                  locatorAcquired, servicesAcquired, isOkE, isSecurityConfigurationError,
                  setProxyBlanketError, releaseAcquired, List.countP, List.countP.go,
                  Event.isReleaseGuard, Event.isReleaseLocator, Event.isReleaseServices]
            | false =>
                have hsome := hWF path (by simp [hcs, hf1])
                simp [hcs] at hsome
        | some s =>
            cases hf2 : FAILED (env.setProxyBlanket (some s)) with
            | true =>
                refine Or.inr ⟨setProxyBlanketError (env.setProxyBlanket (some s)), ?_⟩
                simp [WmiService.construct, hci, hcl, hcs, hf1, hf2, guardAcquired,
                  locatorAcquired, servicesAcquired, isOkE, isSecurityConfigurationError,
                  setProxyBlanketError, releaseAcquired, List.countP, List.countP.go,
                  Event.isReleaseGuard, Event.isReleaseLocator, Event.isReleaseServices]
            | false =>
                refine Or.inl ⟨⟨g, some loc, some s⟩, ?_⟩
                simp [WmiService.construct, hci, hcl, hcs, hf1, hf2,
                  List.countP, List.countP.go, Event.isBlanket]

/-- C3 amended, witness: in the all-success environment the construction
succeeds with a fully valid, security-configured handle. -/
theorem construct_all_or_nothing_witness :
    (∃ h : WmiService, (WmiService.construct cenvOK "ROOT").1 = Except.ok h ∧
      h.wbemLocator.isSome = true ∧ h.wbemServices.isSome = true ∧
      FAILED (cenvOK.setProxyBlanket h.wbemServices) = false ∧
      (WmiService.construct cenvOK "ROOT").2.countP Event.isBlanket = 1) ∨
    (∃ e : NtlException, (WmiService.construct cenvOK "ROOT").1 = Except.error e ∧
      (isSubsystemInitError e = true ∨ isConnectionError e = true ∨
        isSecurityConfigurationError e = true) ∧
      (WmiService.construct cenvOK "ROOT").2.countP Event.isReleaseGuard =
        (if guardAcquired cenvOK then 1 else 0) ∧
      (WmiService.construct cenvOK "ROOT").2.countP Event.isReleaseLocator =
        (if locatorAcquired cenvOK then 1 else 0) ∧
      (WmiService.construct cenvOK "ROOT").2.countP Event.isReleaseServices =
        (if servicesAcquired cenvOK "ROOT" then 1 else 0)) :=
  construct_all_or_nothing cenvOK "ROOT" (fun _ _ => rfl)

/-- C3 counterexample: when the per-thread subsystem initialization of the
coinit member fails, construction fails with a SubsystemInitError, which
is neither a ConnectionError nor a SecurityConfigurationError — the
failure taxonomy in the claim is not exhaustive. -/
theorem construct_error_taxonomy_counterexample :
    (WmiService.construct cenvGuardFail "ROOT").1 =
      Except.error (subsystemInitError RPC_E_CHANGED_MODE) ∧
    isConnectionError (subsystemInitError RPC_E_CHANGED_MODE) = false ∧
    isSecurityConfigurationError (subsystemInitError RPC_E_CHANGED_MODE) = false := by
  refine ⟨rfl, ?_, ?_⟩ <;> rfl

/-- C4: whenever construction succeeds, its native-call trace is exactly
guard initialization, locator creation, connect, and then — immediately
after the successful connect — a single CoSetProxyBlanket call on the
received connection proxy with the fixed security context: Windows-native
authentication (RPC_C_AUTHN_WINNT) at call level (RPC_C_AUTHN_LEVEL_CALL),
authorization RPC_C_AUTHZ_NONE, impersonation level
RPC_C_IMP_LEVEL_IMPERSONATE, no server principal name, null client
identity and EOAC_NONE capabilities.  It appears exactly once in that
trace, and no later operation (delete_path in either form) ever performs a
proxy-blanket call, so the context is never re-applied or mutated. -/
theorem construct_applies_fixed_security_context (env : ConnectEnv) (path : String)
    (h : WmiService) (hok : (WmiService.construct env path).1 = Except.ok h) :
    (WmiService.construct env path).2 =
      [Event.comInitMember, Event.createLocator,
       Event.connectServer path none none none 0 none none,
       Event.setProxyBlanket h.wbemServices RPC_C_AUTHN_WINNT RPC_C_AUTHZ_NONE none
         RPC_C_AUTHN_LEVEL_CALL RPC_C_IMP_LEVEL_IMPERSONATE none EOAC_NONE] ∧
    (∀ (svc : WmiService) (denv : DeleteEnv) (p : String) (c : Option Nat),
      (svc.delete_path denv p c).2.countP Event.isBlanket = 0) := by
  constructor
  · unfold WmiService.construct at hok ⊢
    cases hci : env.comInit with
    | error hr => simp [hci] at hok
    | ok g =>
        cases hcl : env.createLocator with
        | error hr => simp [hci, hcl] at hok
        | ok loc =>
            cases hcs : FAILED (env.connectServer path).1 with
            | true => simp [hci, hcl, hcs] at hok
            | false =>
                cases hsp : FAILED (env.setProxyBlanket (env.connectServer path).2) with
                | true => simp [hci, hcl, hcs, hsp] at hok
                | false =>
                    simp [hci, hcl, hcs, hsp] at hok ⊢
                    rw [← hok]
  · intro svc denv p c
    cases h1 : FAILED (denv.deleteInstance svc.wbemServices p WBEM_FLAG_RETURN_IMMEDIATELY c) <;>
      cases h2 : FAILED (denv.getCallStatus WBEM_INFINITE).1 <;>
        cases h3 : FAILED (denv.getCallStatus WBEM_INFINITE).2 <;>
          simp [WmiService.delete_path, h1, h2, h3, List.countP, List.countP.go,
            Event.isBlanket]

/-- C4 witness: in the all-success environment the successful construction
emits exactly the fixed-context proxy-blanket call on the received proxy,
and delete_path never emits one. -/
theorem construct_applies_fixed_security_context_witness :
    (WmiService.construct cenvOK "ROOT").2 =
      [Event.comInitMember, Event.createLocator,
       Event.connectServer "ROOT" none none none 0 none none,
       Event.setProxyBlanket (WmiService.mk 1 (some 2) (some 3)).wbemServices
         RPC_C_AUTHN_WINNT RPC_C_AUTHZ_NONE none
         RPC_C_AUTHN_LEVEL_CALL RPC_C_IMP_LEVEL_IMPERSONATE none EOAC_NONE] ∧
    (∀ (svc : WmiService) (denv : DeleteEnv) (p : String) (c : Option Nat),
      (svc.delete_path denv p c).2.countP Event.isBlanket = 0) :=
  construct_applies_fixed_security_context cenvOK "ROOT" (WmiService.mk 1 (some 2) (some 3)) rfl

/-- C5: assignment first constructs a temporary copy of the source and
then exchanges the pointer members with it.  When the copy construction
of the temporary fails, the assignment returns the target completely
unmodified alongside the propagated exception; when the copy succeeds, the
exchange step itself produces no exception and installs the source
resources in the target. -/
theorem assign_strong_exception_guarantee (t s : WmiService) :
    (∀ hr : HRESULT,
      WmiService.copy s (Except.error hr) = Except.error (subsystemInitError hr) ∧
      WmiService.assign t s (Except.error hr) = (t, some (subsystemInitError hr))) ∧
    (∀ g : Nat,
      WmiService.copy s (Except.ok g) = Except.ok ⟨g, s.wbemLocator, s.wbemServices⟩ ∧
      (WmiService.assign t s (Except.ok g)).2 = none ∧
      (WmiService.assign t s (Except.ok g)).1.wbemLocator = s.wbemLocator ∧
      (WmiService.assign t s (Except.ok g)).1.wbemServices = s.wbemServices) :=
  ⟨fun _ => ⟨rfl, rfl⟩, fun _ => ⟨rfl, rfl, rfl, rfl⟩⟩

/-- C6: a copy of a handle compares equal to the original under the
resource-identity equality operator, inequality is the pointwise negation
of equality, and two handles obtained by independently connecting to the
same namespace path carry distinct resource identities and so compare
unequal — equality is identity, not value, equality. -/
theorem copy_identity_equality (h : WmiService) (g : Nat) (h2 : WmiService)
    (hc : WmiService.copy h (Except.ok g) = Except.ok h2) :
    WmiService.beq h2 h = true ∧ WmiService.beq h h2 = true ∧
    WmiService.neq h2 h = false ∧
    (∀ a b : WmiService, WmiService.neq a b = !(WmiService.beq a b)) ∧
    ((WmiService.construct cenvOK "ROOT").1 = Except.ok ⟨1, some 2, some 3⟩ ∧
     (WmiService.construct cenvOK2 "ROOT").1 = Except.ok ⟨4, some 5, some 6⟩ ∧
     WmiService.beq ⟨1, some 2, some 3⟩ ⟨4, some 5, some 6⟩ = false) := by
  have hh2 : h2 = ⟨g, h.wbemLocator, h.wbemServices⟩ := by
    simpa [WmiService.copy] using hc.symm
  subst hh2
  refine ⟨?_, ?_, ?_, fun a b => rfl, rfl, rfl, rfl⟩ <;>
    simp [WmiService.beq, WmiService.neq]

/-- C6 witness: copying a concrete connected handle under a fresh guard
yields a handle equal to the original. -/
theorem copy_identity_equality_witness :
    WmiService.beq ⟨7, some 2, some 3⟩ svc0 = true ∧
    WmiService.beq svc0 ⟨7, some 2, some 3⟩ = true ∧
    WmiService.neq ⟨7, some 2, some 3⟩ svc0 = false ∧
    (∀ a b : WmiService, WmiService.neq a b = !(WmiService.beq a b)) ∧
    ((WmiService.construct cenvOK "ROOT").1 = Except.ok ⟨1, some 2, some 3⟩ ∧
     (WmiService.construct cenvOK2 "ROOT").1 = Except.ok ⟨4, some 5, some 6⟩ ∧
     WmiService.beq ⟨1, some 2, some 3⟩ ⟨4, some 5, some 6⟩ = false) :=
  copy_identity_equality svc0 7 ⟨7, some 2, some 3⟩ rfl

/-- C9: self-assignment under a successfully constructed temporary guard
returns the handle bitwise unchanged with no exception: the temporary
shares the same resource identities, so the exchange installs the very
same locator and connection references, and the handle is unchanged as
observed through equality and pass-through access. -/
theorem self_assign_identity (h : WmiService) (g : Nat) :
    WmiService.assign h h (Except.ok g) = (h, none) ∧
    WmiService.beq (WmiService.assign h h (Except.ok g)).1 h = true ∧
    (WmiService.assign h h (Except.ok g)).1.getServices = h.getServices := by
  refine ⟨rfl, ?_, rfl⟩
  simp [WmiService.assign, WmiService.copy, WmiService.beq]

/-- C10: assignment exchanges only the two pointer members.  The target
keeps the per-thread initialization guard it constructed — whether the
assignment succeeds or propagates a copy failure — and the outcome of the
assignment is independent of the guard held by the source. -/
theorem assign_coinit_frame (t s : WmiService) (r : Except HRESULT Nat) :
    (WmiService.assign t s r).1.coinit = t.coinit ∧
    (∀ c : Nat, WmiService.assign t ⟨c, s.wbemLocator, s.wbemServices⟩ r =
      WmiService.assign t s r) := by
  cases r <;> exact ⟨rfl, fun _ => rfl⟩

end Ntl
